import Mathlib

/-!
# Verification of the RiseLog timer-to-record reconciliation engine

Shallow embedding of the timer core of `src/App.tsx` (the study-progress
tracker): the status-derivation function, the minute-accrual helper
`applyMinutes`, and the timer state machine (`startTimer`, `pauseTimer`,
`resumeTimer`, `stopTimer`), together with the per-second auto-finish tick
and the unload flush hook.

Modelling conventions:
* JavaScript numbers are modelled as `Int`; all quantities handled by the
  core (milliseconds, seconds, minutes) are integral in every reachable
  state, so `Math.round` is the identity and is dropped, and
  `Math.floor(x / k)` on integers is `Int.fdiv x k`.
* The record store `Records` (date → subject → entry) is modelled as a
  function `String → String → Option RecordEntry`; an absent entry is
  `none`.  `upsertRecord` merging `{...entry, ...patch}` becomes a pointwise
  functional update that keeps the fields the patch does not mention.
* Optional/nullable fields are `Option`; the JS falsiness checks
  (`!minutes`, `entry.minutes || 0`, `Number(target) || 0`) collapse, on
  integers, to the `≤ 0` / `Option.getD 0` forms used below.
* The status literal strings are the inductive `Status`: `unset` models
  `null`, `half` models the string literal for a half-done day, `miss`
  and `done` model `'miss'` and `'done'`.
-/

inductive Status where
  | unset : Status
  | miss : Status
  | half : Status
  | done : Status
deriving DecidableEq, Repr

structure Subject where
  id : String
  name : String
  color : String
  targetMin : Option Int
deriving DecidableEq, Repr

structure RecordEntry where
  status : Status
  minutes : Option Int
  note : Option String
deriving DecidableEq, Repr

/-- The record store: `records[dateKey][subjectId]`, absent entries `none`. -/
def Records : Type := String → String → Option RecordEntry

structure ActiveTimer where
  id : String
  subjectId : String
  dateKey : String
  targetSec : Int
  isRunning : Bool
  startedAt : Int
  elapsedSec : Int
deriving DecidableEq, Repr

/-- The state the timer core reads and writes: the subject registry, the
record store, and the (at most one) active timer. -/
structure AppState where
  subjects : List Subject
  records : Records
  activeTimer : Option ActiveTimer

/-- `Math.ceil(T / 2)` at the (positive) values where the source evaluates
it; on integers `ceil(T/2) = (T+1)/2` for every `T ≥ 0`. -/
def ceilHalf (T : Int) : Int := (T + 1) / 2

/-- `statusFromMinutes(minutes, target?)` from the source: on integers the
guard `!minutes || minutes <= 0` is `minutes ≤ 0`, and
`Number(target) || 0` is `target.getD 0`. -/
def statusFromMinutes (minutes : Int) (target : Option Int) : Status :=
  if minutes ≤ 0 then Status.unset
  else
    let T := target.getD 0
    if T ≤ 0 then Status.half
    else if minutes ≥ T then Status.done
    else if minutes ≥ ceilHalf T then Status.half
    else Status.unset

/-- `subjects.find((x) => x.id === sid)`. -/
def findSubject (subs : List Subject) (sid : String) : Option Subject :=
  subs.find? (fun x => x.id == sid)

/-- `getEntry(dateKey, sid).minutes || 0`: the minutes stored for
`(dateKey, sid)`, defaulting to 0 when the entry or the field is absent. -/
def getMinutes (r : Records) (d sid : String) : Int :=
  ((r d sid).bind RecordEntry.minutes).getD 0

/-- The default entry `{ status: null }` that `upsertRecord` merges the
patch into when no entry exists yet. -/
def defaultEntry : RecordEntry := { status := Status.unset, minutes := none, note := none }

/-- `upsertRecord(dateKey, sid, { minutes, status })`: merge the patch over
the existing entry (or the default), keeping `note`. -/
def upsertMinStatus (r : Records) (d sid : String) (m : Int) (st : Status) : Records :=
  fun d' s' =>
    if d' = d ∧ s' = sid then
      some { status := st, minutes := some m, note := ((r d sid).getD defaultEntry).note }
    else r d' s'

/-- `applyMinutes(dateKey, sid, addMin)`: no-op on non-positive input,
otherwise add the minutes (clamped at 0; `Math.round` is the identity on
integers) and re-derive the status from the subject's current target. -/
def applyMinutes (subs : List Subject) (r : Records) (d sid : String) (addMin : Int) : Records :=
  if addMin ≤ 0 then r
  else
    let subj := findSubject subs sid
    let prevMin := getMinutes r d sid
    let nextMin := max 0 (prevMin + addMin)
    let st := statusFromMinutes nextMin (subj.bind Subject.targetMin)
    upsertMinStatus r d sid nextMin st

/-- `Math.floor((now - startedAt) / 1000)`: seconds of the current running
interval (floor division, as `Math.floor` on a real quotient). -/
def intervalSec (now startedAt : Int) : Int := (now - startedAt).fdiv 1000

/-- `remainingSec(t)`: remaining seconds of the timer, never negative. -/
def remainingSec (now : Int) : Option ActiveTimer → Int
  | none => 0
  | some t =>
      max 0 (t.targetSec -
        (t.elapsedSec + (if t.isRunning then intervalSec now t.startedAt else 0)))

/-- `startTimer()`: no-op when no subject is selected (`!timerSubjectId`,
i.e. `null` or the empty string); otherwise unconditionally installs a
fresh running timer with the current date key and zero accumulated time.
`Math.round(durationMin * 60)` is the identity on integral minutes. -/
def startTimer (tsid : Option String) (durationMin : Int) (newId dateKey : String)
    (now : Int) (st : AppState) : AppState :=
  match tsid with
  | none => st
  | some sid =>
      if sid = "" then st
      else
        { st with
          activeTimer := some
            { id := newId, subjectId := sid, dateKey := dateKey,
              targetSec := max 60 (durationMin * 60),
              isRunning := true, startedAt := now, elapsedSec := 0 } }

/-- `pauseTimer()`: no-op unless a running timer exists; folds the current
interval into `elapsedSec`, commits `floor(interval / 60)` whole minutes
when positive, and stops the clock. -/
def pauseTimer (now : Int) (st : AppState) : AppState :=
  match st.activeTimer with
  | none => st
  | some t =>
      if t.isRunning then
        let addSec := intervalSec now t.startedAt
        let nt : ActiveTimer := { t with isRunning := false, elapsedSec := t.elapsedSec + addSec }
        let addMin := addSec.fdiv 60
        let r' := if addMin > 0 then applyMinutes st.subjects st.records t.dateKey t.subjectId addMin
                  else st.records
        { st with activeTimer := some nt, records := r' }
      else st

/-- `resumeTimer()`: restart the clock from `now` (no `isRunning` check in
the source), keeping `elapsedSec`. -/
def resumeTimer (now : Int) (st : AppState) : AppState :=
  match st.activeTimer with
  | none => st
  | some t => { st with activeTimer := some { t with isRunning := true, startedAt := now } }

/-- `stopTimer(commit)`: fold any in-flight interval into the total, commit
`floor(total / 60)` minutes when `commit` and positive, and destroy the
timer unconditionally. -/
def stopTimer (commit : Bool) (now : Int) (st : AppState) : AppState :=
  match st.activeTimer with
  | none => { st with activeTimer := none }
  | some t =>
      let totalSec := t.elapsedSec + (if t.isRunning then intervalSec now t.startedAt else 0)
      let r' := if commit then
                  let addMin := totalSec.fdiv 60
                  if addMin > 0 then applyMinutes st.subjects st.records t.dateKey t.subjectId addMin
                  else st.records
                else st.records
      { st with activeTimer := none, records := r' }

/-- The per-second tick effect: when the remaining time of the active timer
has reached 0, commit `floor(targetSec / 60)` minutes (the configured
target, not the elapsed time) and destroy the timer. -/
def tickAutoFinish (now : Int) (st : AppState) : AppState :=
  match st.activeTimer with
  | none => st
  | some t =>
      if remainingSec now (some t) ≤ 0 then
        let addMin := t.targetSec.fdiv 60
        let r' := if addMin > 0 then applyMinutes st.subjects st.records t.dateKey t.subjectId addMin
                  else st.records
        { st with activeTimer := none, records := r' }
      else st

/-- The `beforeunload` flush: commit the whole minutes of the total elapsed
time and discard the timer. -/
def unloadFlush (now : Int) (st : AppState) : AppState :=
  match st.activeTimer with
  | none => st
  | some t =>
      let sec := t.elapsedSec + (if t.isRunning then intervalSec now t.startedAt else 0)
      let addMin := sec.fdiv 60
      let r' := if addMin > 0 then applyMinutes st.subjects st.records t.dateKey t.subjectId addMin
                else st.records
      { st with activeTimer := none, records := r' }

/-- The case analysis the spec states for `deriveStatus`, written from the
spec's words, to be compared with `statusFromMinutes` from the source. -/
def deriveStatusSpec (minutes targetMinutes : Int) : Status :=
  if minutes ≤ 0 then Status.unset
  else if targetMinutes ≤ 0 then Status.half
  else if minutes ≥ targetMinutes then Status.done
  else if minutes ≥ ceilHalf targetMinutes then Status.half
  else Status.unset

/-- Rank of a status in the ordering unset < half-done < done used by the
monotonicity property.  `miss` is never produced by `statusFromMinutes`,
so its rank is irrelevant; it is placed at the bottom. -/
def statusRank : Status → Nat
  | Status.unset => 0
  | Status.miss => 0
  | Status.half => 1
  | Status.done => 2

/- ===== shared helper lemmas ===== -/

theorem applyMinutes_nonpos (subs : List Subject) (r : Records) (d sid : String)
    (addMin : Int) (h : addMin ≤ 0) : applyMinutes subs r d sid addMin = r := by
  simp [applyMinutes, h]

theorem applyMinutes_other (subs : List Subject) (r : Records) (d sid : String)
    (addMin : Int) (d' s' : String) (hd : d' ≠ d) :
    applyMinutes subs r d sid addMin d' s' = r d' s' := by
  unfold applyMinutes
  split
  · rfl
  · simp [upsertMinStatus, hd]

theorem getMinutes_upsert_self (r : Records) (d sid : String) (mv : Int) (stat : Status) :
    getMinutes (upsertMinStatus r d sid mv stat) d sid = mv := by
  simp [getMinutes, upsertMinStatus]

theorem getMinutes_applyMinutes_pos (subs : List Subject) (r : Records) (d sid : String)
    (k : Int) (hk : 0 < k) :
    getMinutes (applyMinutes subs r d sid k) d sid = max 0 (getMinutes r d sid + k) := by
  rw [applyMinutes, if_neg (by omega)]
  exact getMinutes_upsert_self ..

theorem ceilHalf_le_self (T : Int) (h : 0 < T) : ceilHalf T ≤ T := by
  unfold ceilHalf; omega

theorem applyMinutes_pos_self (subs : List Subject) (r : Records) (d sid : String)
    (k : Int) (hk : 0 < k) :
    applyMinutes subs r d sid k d sid =
      some { status := statusFromMinutes (max 0 (getMinutes r d sid + k))
                        ((findSubject subs sid).bind Subject.targetMin),
             minutes := some (max 0 (getMinutes r d sid + k)),
             note := ((r d sid).getD defaultEntry).note } := by
  rw [applyMinutes, if_neg (by omega)]
  simp [upsertMinStatus]

/-- An idle state with no subjects and an empty record store. -/
def emptyState : AppState := AppState.mk [] (fun _ _ => none) none

/- ===== C3 ===== -/

/-- C3 (counterexample): the claim "whenever minutes >= target the result is
always done" fails at `minutes = 1`, `target = 0`: both are non-negative and
`1 ≥ 0`, yet `statusFromMinutes` returns the half-done status, not `done`
(a zero target means "no target", which can never be completed). -/
theorem statusFromMinutes_not_done_at_zero_target :
    (1 : Int) ≥ 0 ∧ (0 : Int) ≥ 0 ∧ (1 : Int) ≥ 0 ∧
    statusFromMinutes 1 (some 0) = Status.half ∧
    statusFromMinutes 1 (some 0) ≠ Status.done := by
  refine ⟨by decide, by decide, by decide, by decide, by decide⟩

/-- C3 (amended): for every fixed target, `statusFromMinutes` is monotonic
non-decreasing in minutes (ordering unset < half-done < done, `miss`
unreachable); and whenever the target is positive, `minutes ≥ target`
always yields `done`, regardless of further increases. -/
theorem statusFromMinutes_monotone (t : Option Int) (m1 m2 : Int) (h12 : m1 ≤ m2)
    (T m : Int) (hT : 0 < T) (hm : T ≤ m) :
    statusRank (statusFromMinutes m1 t) ≤ statusRank (statusFromMinutes m2 t) ∧
    statusFromMinutes m (some T) = Status.done := by
  constructor
  · simp only [statusFromMinutes]
    split_ifs <;> simp [statusRank] <;> omega
  · simp only [statusFromMinutes, Option.getD_some]
    rw [if_neg (by omega), if_neg (by omega), if_pos (by omega)]

/-- C3 witness. -/
theorem statusFromMinutes_monotone_witness :
    (3 : Int) ≤ 7 ∧ (0 : Int) < 10 ∧ (10 : Int) ≤ 12 ∧
    (statusRank (statusFromMinutes 3 (some 10)) ≤ statusRank (statusFromMinutes 7 (some 10)) ∧
      statusFromMinutes 12 (some 10) = Status.done) :=
  ⟨by decide, by decide, by decide,
    statusFromMinutes_monotone (some 10) 3 7 (by decide) 10 12 (by decide) (by decide)⟩

/- ===== C4 ===== -/

/-- C4: `statusFromMinutes` equals the spec's case analysis for all inputs
(with a missing target read as 0, exactly as `Number(target) || 0` does),
and in particular zero minutes always derive the unset status. -/
theorem statusFromMinutes_eq_spec (m : Int) (t : Option Int) (targ : Int)
    (htarg : 0 ≤ targ) :
    statusFromMinutes m t = deriveStatusSpec m (t.getD 0) ∧
    statusFromMinutes 0 (some targ) = Status.unset := by
  constructor
  · rfl
  · simp [statusFromMinutes]

/-- C4 witness. -/
theorem statusFromMinutes_eq_spec_witness :
    (0 : Int) ≤ 25 ∧
    (statusFromMinutes 13 (some 25) = deriveStatusSpec 13 ((some (25 : Int)).getD 0) ∧
      statusFromMinutes 0 (some 25) = Status.unset) :=
  ⟨by decide, statusFromMinutes_eq_spec 13 (some 25) 25 (by decide)⟩

/- ===== C8 ===== -/

/-- C8: `applyMinutes` with a non-positive minute amount is a silent no-op:
the whole record store (minutes, status and note of every entry) is
returned unchanged. -/
theorem applyMinutes_nonpos_noop (subs : List Subject) (r : Records) (d sid : String)
    (addMin : Int) (h : addMin ≤ 0) : applyMinutes subs r d sid addMin = r :=
  applyMinutes_nonpos subs r d sid addMin h

/-- C8 witness. -/
theorem applyMinutes_nonpos_noop_witness :
    (0 : Int) ≤ 0 ∧
    applyMinutes [] (fun _ _ => none) "2025-01-01" "s" 0 = (fun _ _ => none) :=
  ⟨by decide, applyMinutes_nonpos_noop [] (fun _ _ => none) "2025-01-01" "s" 0 (by decide)⟩

/- ===== C9 ===== -/

/-- C9: `Start` followed immediately by `Stop(commit = false)` leaves the
record store (every entry) exactly as before the `Start`, keeps the subject
registry, and destroys the active timer (state back to idle). -/
theorem start_stop_false_roundtrip (st : AppState) (tsid : Option String) (dur : Int)
    (nid dk : String) (n1 n2 : Int) :
    (stopTimer false n2 (startTimer tsid dur nid dk n1 st)).records = st.records ∧
    (stopTimer false n2 (startTimer tsid dur nid dk n1 st)).activeTimer = none ∧
    (stopTimer false n2 (startTimer tsid dur nid dk n1 st)).subjects = st.subjects := by
  rcases tsid with _ | sid
  · cases h : st.activeTimer <;> simp [startTimer, stopTimer, h]
  · by_cases hs : sid = ""
    · cases h : st.activeTimer <;> simp [startTimer, stopTimer, hs, h]
    · simp [startTimer, stopTimer, hs]

/- ===== C10 ===== -/

/-- C10: `start` does not enforce the idle precondition: invoked while an
active timer exists, it unconditionally replaces it with a fresh running
timer (`elapsedSec = 0`, the new date key, `targetSec = max 60 (dur·60)`),
and the record store is untouched — the replaced timer's accumulated
elapsed seconds are discarded without any commit. -/
theorem start_replaces_active (st : AppState) (t : ActiveTimer)
    (ht : st.activeTimer = some t) (sid : String) (hsid : sid ≠ "")
    (dur : Int) (nid dk : String) (now : Int) :
    startTimer (some sid) dur nid dk now st =
      { st with activeTimer := some ⟨nid, sid, dk, max 60 (dur * 60), true, now, 0⟩ } := by
  simp [startTimer, hsid]

/-- A state with a paused timer holding 130 accumulated, uncommitted
seconds (used by the C10 witness). -/
def pausedState : AppState :=
  AppState.mk [] (fun _ _ => none) (some ⟨"t0", "s", "2025-01-01", 1500, false, 0, 130⟩)

/-- C10 witness: a paused timer with 130 accumulated (uncommitted) seconds
is replaced wholesale and no minutes are committed. -/
theorem start_replaces_active_witness :
    pausedState.activeTimer = some ⟨"t0", "s", "2025-01-01", 1500, false, 0, 130⟩ ∧
    ("m" : String) ≠ "" ∧
    startTimer (some "m") 25 "t1" "2025-01-02" 5000 pausedState =
      { pausedState with
        activeTimer := some ⟨"t1", "m", "2025-01-02", max 60 (25 * 60), true, 5000, 0⟩ } :=
  ⟨rfl, by decide,
    start_replaces_active _ _ rfl "m" (by decide) 25 "t1" "2025-01-02" 5000⟩

/- ===== C1 ===== -/

/-- Initial state for the pause/resume scenario: one subject "s" with a
25-minute target, empty record store, no timer. -/
def c1State0 : AppState :=
  AppState.mk [⟨"s", "Math", "#22c55e", some 25⟩] (fun _ _ => none) none

/-- After `Start(25min)` at t = 0 and `Pause()` 70 simulated seconds later. -/
def c1AfterPause1 : AppState :=
  pauseTimer 70000 (startTimer (some "s") 25 "t1" "2025-01-01" 0 c1State0)

/-- After `Resume()` at t = 100s and a second `Pause()` 50 seconds later. -/
def c1AfterPause2 : AppState :=
  pauseTimer 150000 (resumeTimer 100000 c1AfterPause1)

/-- C1 (counterexample): in the claimed scenario the second pause does NOT
bring the total committed minutes to `floor(120/60) = 2`: after both pauses
only 1 minute has been committed for `("2025-01-01", "s")`. -/
theorem twoPause_total_commit_ne_two :
    getMinutes c1AfterPause2.records "2025-01-01" "s" = 1 ∧
    getMinutes c1AfterPause2.records "2025-01-01" "s" ≠ 2 := by
  constructor
  · decide
  · decide

/-- C1 (amended): the first pause commits exactly `floor(70/60) = 1` minute
and retains the full 70 seconds (hence the 10-second fragment) in
`elapsedSec`; the second pause brings `elapsedSec` to 120 but commits
`floor(50/60) = 0` further minutes, because each pause only commits the
whole minutes of its own running interval: in total 1 minute
(= floor(70/60) + floor(50/60)), not floor(120/60) = 2, is committed
across the two pauses. -/
theorem twoPause_commits_one_minute :
    getMinutes c1AfterPause1.records "2025-01-01" "s" = 1 ∧
    c1AfterPause1.activeTimer.map ActiveTimer.elapsedSec = some 70 ∧
    c1AfterPause1.activeTimer.map ActiveTimer.isRunning = some false ∧
    c1AfterPause2.activeTimer.map ActiveTimer.elapsedSec = some 120 ∧
    getMinutes c1AfterPause2.records "2025-01-01" "s" = 1 := by
  refine ⟨by decide, by decide, by decide, by decide, by decide⟩

/- ===== C2 ===== -/

/-- C2: in a session where a pause has already committed `k ≥ 1` minutes, a
subsequent `Stop(commit = true)` commits `floor(totalElapsed/60)` computed
over the whole session again, so the record for `(dk, sid)` gains
`k + floor(totalElapsed/60)` minutes in total — pause-then-stop
double-counts the paused interval's whole minutes.  Here the session runs
`a` seconds (`floor(a/60) = k`), is paused, then stopped with commit. -/
theorem pause_then_stop_double_commit (subs : List Subject) (r : Records) (sid : String)
    (hsid : sid ≠ "") (dur : Int) (nid dk : String) (n0 n1 n2 : Int) (a k m : Int)
    (hint : intervalSec n1 n0 = a) (hk : a.fdiv 60 = k) (hk1 : 1 ≤ k)
    (hm : getMinutes r dk sid = m) (hm0 : 0 ≤ m) :
    getMinutes (pauseTimer n1 (startTimer (some sid) dur nid dk n0
        (AppState.mk subs r none))).records dk sid = m + k ∧
    getMinutes (stopTimer true n2 (pauseTimer n1 (startTimer (some sid) dur nid dk n0
        (AppState.mk subs r none)))).records dk sid = m + k + k := by
  have h1 : startTimer (some sid) dur nid dk n0 (AppState.mk subs r none) =
      AppState.mk subs r (some ⟨nid, sid, dk, max 60 (dur * 60), true, n0, 0⟩) := by
    simp [startTimer, hsid]
  have h2 : pauseTimer n1 (AppState.mk subs r
        (some ⟨nid, sid, dk, max 60 (dur * 60), true, n0, 0⟩)) =
      AppState.mk subs (applyMinutes subs r dk sid k)
        (some ⟨nid, sid, dk, max 60 (dur * 60), false, n0, a⟩) := by
    simp only [pauseTimer, hint, hk]
    rw [if_pos (by omega : k > 0)]
    simp
  rw [h1, h2]
  have hg : getMinutes (applyMinutes subs r dk sid k) dk sid = m + k := by
    rw [getMinutes_applyMinutes_pos subs r dk sid k (by omega), hm]
    omega
  refine ⟨hg, ?_⟩
  simp only [stopTimer]
  simp only [Bool.false_eq_true, if_false, add_zero, hk]
  rw [if_pos (by omega : k > 0), if_pos trivial]
  rw [getMinutes_applyMinutes_pos subs _ dk sid k (by omega), hg]
  omega

/-- C2 witness: a 70-second run, pause (commits 1), stop-with-commit
(commits 1 again): the record gains 2 minutes for 70 seconds of study. -/
theorem pause_then_stop_double_commit_witness :
    ("s" : String) ≠ "" ∧ intervalSec 70000 0 = 70 ∧ (70 : Int).fdiv 60 = 1 ∧
    (1 : Int) ≤ 1 ∧ getMinutes (fun _ _ => none) "2025-01-01" "s" = 0 ∧ (0 : Int) ≤ 0 ∧
    (getMinutes (pauseTimer 70000 (startTimer (some "s") 25 "t1" "2025-01-01" 0
        (AppState.mk [] (fun _ _ => none) none))).records "2025-01-01" "s" = 0 + 1 ∧
      getMinutes (stopTimer true 200000 (pauseTimer 70000 (startTimer (some "s") 25 "t1"
        "2025-01-01" 0 (AppState.mk [] (fun _ _ => none) none)))).records "2025-01-01" "s"
        = 0 + 1 + 1) :=
  ⟨by decide, by decide, by decide, by decide, by decide, by decide,
    pause_then_stop_double_commit [] (fun _ _ => none) "s" (by decide) 25 "t1" "2025-01-01"
      0 70000 200000 70 1 0 (by decide) (by decide) (by decide) (by decide) (by decide)⟩

/- ===== C5 ===== -/

/-- C5: whenever the active timer's remaining time (per the invariant
computed by `remainingSec`) has reached 0, the tick handler commits exactly
`floor(targetSec/60)` minutes — the originally configured target, an
expression independent of `now` and of any overrun — to the start date key
and subject id, and destroys the timer. -/
theorem tick_commits_target (now : Int) (st : AppState) (t : ActiveTimer)
    (ht : st.activeTimer = some t) (hrem : remainingSec now st.activeTimer ≤ 0) :
    tickAutoFinish now st =
      { st with
        activeTimer := none,
        records := applyMinutes st.subjects st.records t.dateKey t.subjectId (t.targetSec.fdiv 60) } := by
  obtain ⟨subs, r, a0⟩ := st
  cases ht
  simp only [tickAutoFinish]
  rw [if_pos hrem]
  by_cases h : t.targetSec.fdiv 60 > 0
  · rw [if_pos h]
  · rw [if_neg h, applyMinutes_nonpos subs r t.dateKey t.subjectId _ (by omega)]

/-- A state whose 1-minute timer started at epoch 0 and is examined far
past its deadline (used by the C5 witness). -/
def overrunState : AppState :=
  AppState.mk [] (fun _ _ => none) (some ⟨"t0", "s", "2025-01-01", 60, true, 0, 0⟩)

/-- C5 witness: five minutes of wall-clock overrun on a 1-minute timer
still commit exactly `floor(60/60) = 1` minute. -/
theorem tick_commits_target_witness :
    overrunState.activeTimer = some ⟨"t0", "s", "2025-01-01", 60, true, 0, 0⟩ ∧
    remainingSec 300000 overrunState.activeTimer ≤ 0 ∧
    tickAutoFinish 300000 overrunState =
      { overrunState with
        activeTimer := none,
        records := applyMinutes overrunState.subjects overrunState.records "2025-01-01" "s" ((60 : Int).fdiv 60) } :=
  ⟨rfl, by decide, tick_commits_target 300000 overrunState _ rfl (by decide)⟩

/- ===== C6 ===== -/

/-- C6: the date key captured at `Start` is frozen for the timer's whole
lifetime: it is stored in the timer at start, survives pause and resume
unchanged, and every commit path (pause, stop-with-commit, auto-finish
tick, shutdown flush), at an arbitrary later instant, writes only at that
stored date key — records under every other date key are untouched, so no
commit ever uses a date re-derived from the clock at commit time. -/
theorem dateKey_frozen_at_start (st : AppState) (sid : String) (hsid : sid ≠ "")
    (dur : Int) (nid dk : String) (n0 n1 n2 : Int) :
    ((startTimer (some sid) dur nid dk n0 st).activeTimer.map ActiveTimer.dateKey
      = some dk) ∧
    ((pauseTimer n1 (startTimer (some sid) dur nid dk n0 st)).activeTimer.map
      ActiveTimer.dateKey = some dk) ∧
    ((resumeTimer n2 (pauseTimer n1 (startTimer (some sid) dur nid dk n0 st))).activeTimer.map
      ActiveTimer.dateKey = some dk) ∧
    (∀ d s, d ≠ dk →
      (pauseTimer n1 (startTimer (some sid) dur nid dk n0 st)).records d s = st.records d s) ∧
    (∀ d s, d ≠ dk →
      (stopTimer true n1 (startTimer (some sid) dur nid dk n0 st)).records d s = st.records d s) ∧
    (∀ d s, d ≠ dk →
      (tickAutoFinish n1 (startTimer (some sid) dur nid dk n0 st)).records d s = st.records d s) ∧
    (∀ d s, d ≠ dk →
      (unloadFlush n1 (startTimer (some sid) dur nid dk n0 st)).records d s = st.records d s) := by
  have h1 : startTimer (some sid) dur nid dk n0 st =
      { st with activeTimer := some ⟨nid, sid, dk, max 60 (dur * 60), true, n0, 0⟩ } := by
    simp [startTimer, hsid]
  rw [h1]
  refine ⟨rfl, ?_, ?_, ?_, ?_, ?_, ?_⟩
  · simp [pauseTimer]
  · simp [pauseTimer, resumeTimer]
  · intro d s hd
    simp only [pauseTimer, if_true]
    by_cases h : (intervalSec n1 n0).fdiv 60 > 0
    · rw [if_pos h]; exact applyMinutes_other _ _ _ _ _ _ _ hd
    · rw [if_neg h]
  · intro d s hd
    simp only [stopTimer, if_true]
    by_cases h : ((0 : Int) + intervalSec n1 n0).fdiv 60 > 0
    · rw [if_pos h]; exact applyMinutes_other _ _ _ _ _ _ _ hd
    · rw [if_neg h]
  · intro d s hd
    simp only [tickAutoFinish, if_true]
    by_cases hr : remainingSec n1 (some ⟨nid, sid, dk, max 60 (dur * 60), true, n0, 0⟩) ≤ 0
    · rw [if_pos hr]
      by_cases h : (max 60 (dur * 60)).fdiv 60 > 0
      · rw [if_pos h]; exact applyMinutes_other _ _ _ _ _ _ _ hd
      · rw [if_neg h]
    · rw [if_neg hr]
  · intro d s hd
    simp only [unloadFlush, if_true]
    by_cases h : ((0 : Int) + intervalSec n1 n0).fdiv 60 > 0
    · rw [if_pos h]; exact applyMinutes_other _ _ _ _ _ _ _ hd
    · rw [if_neg h]

/-- C6 witness. -/
theorem dateKey_frozen_at_start_witness :
    ("s" : String) ≠ "" ∧
    (((startTimer (some "s") 25 "t1" "2025-01-01" 0 emptyState).activeTimer.map
        ActiveTimer.dateKey = some "2025-01-01") ∧
      ((pauseTimer 70000 (startTimer (some "s") 25 "t1" "2025-01-01" 0
        emptyState)).activeTimer.map ActiveTimer.dateKey = some "2025-01-01") ∧
      ((resumeTimer 100000 (pauseTimer 70000 (startTimer (some "s") 25 "t1" "2025-01-01" 0
        emptyState))).activeTimer.map ActiveTimer.dateKey = some "2025-01-01") ∧
      (∀ d s, d ≠ "2025-01-01" →
        (pauseTimer 70000 (startTimer (some "s") 25 "t1" "2025-01-01" 0
          emptyState)).records d s = emptyState.records d s) ∧
      (∀ d s, d ≠ "2025-01-01" →
        (stopTimer true 70000 (startTimer (some "s") 25 "t1" "2025-01-01" 0
          emptyState)).records d s = emptyState.records d s) ∧
      (∀ d s, d ≠ "2025-01-01" →
        (tickAutoFinish 70000 (startTimer (some "s") 25 "t1" "2025-01-01" 0
          emptyState)).records d s = emptyState.records d s) ∧
      (∀ d s, d ≠ "2025-01-01" →
        (unloadFlush 70000 (startTimer (some "s") 25 "t1" "2025-01-01" 0
          emptyState)).records d s = emptyState.records d s)) :=
  ⟨by decide, dateKey_frozen_at_start emptyState "s" (by decide) 25 "t1" "2025-01-01" 0 70000 100000⟩

/- ===== C7 ===== -/

/-- C7: a minute commit still succeeds when the subject referenced by the
timer no longer exists in the registry: `Stop(commit = true)` on a paused
timer whose subject id has no match writes the added minutes under the
stored subject id (status derived with no target), and destroys the timer —
id-based storage never requires the subject to exist when `applyMinutes`
runs. -/
theorem stop_commit_succeeds_without_subject (st : AppState) (t : ActiveTimer) (now : Int)
    (ht : st.activeTimer = some t) (hnr : t.isRunning = false)
    (hmiss : findSubject st.subjects t.subjectId = none)
    (k : Int) (hk : t.elapsedSec.fdiv 60 = k) (hkpos : 0 < k) :
    (stopTimer true now st).activeTimer = none ∧
    (stopTimer true now st).records t.dateKey t.subjectId =
      some { status := statusFromMinutes
                (max 0 (getMinutes st.records t.dateKey t.subjectId + k)) none,
             minutes := some (max 0 (getMinutes st.records t.dateKey t.subjectId + k)),
             note := ((st.records t.dateKey t.subjectId).getD defaultEntry).note } := by
  obtain ⟨subs, r, a0⟩ := st
  cases ht
  have h2 : stopTimer true now (AppState.mk subs r (some t)) =
      AppState.mk subs (applyMinutes subs r t.dateKey t.subjectId k) none := by
    simp only [stopTimer, hnr, Bool.false_eq_true, if_false, add_zero, hk]
    rw [if_pos (by omega : k > 0)]
    simp
  rw [h2]
  refine ⟨rfl, ?_⟩
  have hm2 : findSubject subs t.subjectId = none := hmiss
  show applyMinutes subs r t.dateKey t.subjectId k t.dateKey t.subjectId = _
  rw [applyMinutes_pos_self subs r t.dateKey t.subjectId k hkpos, hm2]
  rfl

/-- A paused timer referencing subject id "gone", absent from the (empty)
registry (used by the C7 witness). -/
def orphanState : AppState :=
  AppState.mk [] (fun _ _ => none) (some ⟨"t0", "gone", "2025-01-01", 1500, false, 0, 130⟩)

/-- C7 witness: stopping with commit after the subject was deleted still
writes `floor(130/60) = 2` minutes under "gone". -/
theorem stop_commit_succeeds_without_subject_witness :
    orphanState.activeTimer = some ⟨"t0", "gone", "2025-01-01", 1500, false, 0, 130⟩ ∧
    (false : Bool) = false ∧
    findSubject orphanState.subjects "gone" = none ∧
    (130 : Int).fdiv 60 = 2 ∧ (0 : Int) < 2 ∧
    ((stopTimer true 999 orphanState).activeTimer = none ∧
      (stopTimer true 999 orphanState).records "2025-01-01" "gone" =
        some { status := statusFromMinutes
                  (max 0 (getMinutes orphanState.records "2025-01-01" "gone" + 2)) none,
               minutes := some (max 0 (getMinutes orphanState.records "2025-01-01" "gone" + 2)),
               note := ((orphanState.records "2025-01-01" "gone").getD defaultEntry).note }) :=
  ⟨rfl, rfl, rfl, by decide, by decide,
    stop_commit_succeeds_without_subject orphanState _ 999 rfl rfl rfl 2 (by decide) (by decide)⟩
